import Mathlib

/-!
Formal model of cxa_guard.cpp (duetto-libcxxabi): the guard state machine
behind __cxa_guard_acquire / __cxa_guard_release / __cxa_guard_abort.

The file embeds the three platform configurations of the source as pure
functions on the guard word (a Nat holding the 32- or 64-bit value; byte k
of a little-endian word w is w / 256^k % 256, written with literal
numerals):

* Duetto : guard_type = uint32_t, lock_type = uint32_t, get_lock/set_lock act
  on the whole word (lines 52-65 and 94-107); no pthread calls.
* Apple  : guard_type = uint64_t, initialized = lowest byte, lock = top 32
  bits holding a thread id (lines 67-79 and 108-121); self-deadlock check.
* Generic: guard_type = uint64_t, boolean lock stored in byte 1 via the union
  trick (lines 142-169); pthread mutex/condvar protocol.

All guard accesses in the source happen with the one process-wide mutex held,
so a single call is a sequence of atomic segments separated only by
pthread_cond_wait; the sequential functions below return the observable
result of one such call, with Option.none (or a dedicated constructor)
standing for the call being blocked in cond_wait, and Except.error standing
for abort_message terminating the process.  The concurrent protocol of
acquire/release racing threads is modelled separately as a step relation.
-/

namespace CxaGuard

/-- Result of one __cxa_guard_acquire call in the Apple ownership
configuration: a returned int together with the guard word it left behind,
a fatal abort_message, or being blocked in pthread_cond_wait awaiting
another thread. -/
inductive AcqResult where
  | ret (result : Nat) (g : Nat)
  | fatal (msg : String)
  | blocked
deriving DecidableEq, Repr

namespace Duetto

/-- is_initialized for uint32 guards (lines 59-61): (*guard_object) & 1. -/
def is_initialized (g : Nat) : Bool := g % 2 != 0

/-- set_initialized for uint32 guards (lines 63-65): *guard_object |= 1. -/
def set_initialized (g : Nat) : Nat := g ||| 1

/-- get_lock under __DUETTO__ (lines 95-100): static_cast<lock_type>(x),
the whole 32-bit word. -/
def get_lock (x : Nat) : Nat := x

/-- set_lock under __DUETTO__ (lines 102-107): x = static_cast<uint32_t>(y),
overwriting the whole word with the lock value. -/
def set_lock (x y : Nat) : Nat := y % 4294967296

/-- The guard value right after the first store of __cxa_guard_release
(*guard_object = 0, line 257), before set_initialized runs. -/
def release_mid (g : Nat) : Nat := 0

/-- __cxa_guard_acquire under __DUETTO__ (lines 203-249): no pthread calls
and no Apple branch, so only the char-sized initialized check at line 210,
the re-check at line 239 and set_lock(*guard_object, true) at line 241
remain; true converts to lock_type value 1. -/
def cxa_guard_acquire (g : Nat) : Nat × Nat :=
  if g % 256 = 0 then
    if g % 256 = 0 then (1, set_lock g 1)
    else (0, g)
  else (0, g)

/-- __cxa_guard_release under __DUETTO__ (lines 251-265): *guard_object = 0
followed by set_initialized. -/
def cxa_guard_release (g : Nat) : Nat := set_initialized (release_mid g)

/-- __cxa_guard_abort under __DUETTO__ (lines 267-280): *guard_object = 0. -/
def cxa_guard_abort (g : Nat) : Nat := 0

end Duetto

namespace Apple

/-- is_initialized for uint64 guards (lines 71-74): the lowest-addressed
byte read through a char pointer, converted to bool. -/
def is_initialized (g : Nat) : Bool := g % 256 != 0

/-- set_initialized for uint64 guards (lines 76-79): write 1 into the
lowest-addressed byte. -/
def set_initialized (g : Nat) : Nat := g / 256 * 256 + 1

/-- get_lock, Apple little-endian uint64 (lines 109-114):
static_cast<lock_type>(x >> 32). -/
def get_lock (x : Nat) : Nat := x / 4294967296 % 4294967296

/-- set_lock, Apple little-endian uint64 (lines 116-121):
x = static_cast<uint64_t>(y) << 32. -/
def set_lock (x y : Nat) : Nat := y % 4294967296 * 4294967296

/-- The guard value right after *guard_object = 0 inside release. -/
def release_mid (g : Nat) : Nat := 0

/-- __cxa_guard_acquire, Apple branch (lines 203-249): fast initialized
check, then the ownership protocol of lines 214-232 with id the calling
thread's identity; lock == id aborts with the deadlock diagnostic, a foreign
lock blocks in the cond-wait loop, a clear lock is claimed with set_lock. -/
def cxa_guard_acquire (id g : Nat) : AcqResult :=
  if g % 256 = 0 then
    if get_lock g ≠ 0 then
      if get_lock g = id then AcqResult.fatal "__cxa_guard_acquire detected deadlock"
      else AcqResult.blocked
    else AcqResult.ret 1 (set_lock g id)
  else AcqResult.ret 0 g

/-- __cxa_guard_release (lines 251-265): *guard_object = 0 then
set_initialized. -/
def cxa_guard_release (g : Nat) : Nat := set_initialized (release_mid g)

/-- __cxa_guard_abort (lines 267-280): *guard_object = 0. -/
def cxa_guard_abort (g : Nat) : Nat := 0

end Apple

namespace Generic

/-- is_initialized for uint64 guards (lines 71-74). -/
def is_initialized (g : Nat) : Bool := g % 256 != 0

/-- set_initialized for uint64 guards (lines 76-79). -/
def set_initialized (g : Nat) : Nat := g / 256 * 256 + 1

/-- get_lock, boolean encoding on uint64 (lines 146-156): byte 1 of the
word, read through the union, compared against 0. -/
def get_lock (x : Nat) : Bool := x / 256 % 256 != 0

/-- set_lock, boolean encoding on uint64 (lines 158-169): build a fresh
all-zero word, store y (as a uint8_t 0 or 1) into byte 1, and assign it
over the whole guard word. -/
def set_lock (x : Nat) (y : Bool) : Nat := (if y then 1 else 0) * 256

/-- The guard value right after *guard_object = 0 inside release. -/
def release_mid (g : Nat) : Nat := 0

/-- __cxa_guard_acquire, generic pthread branch (lines 203-249) as one
uncontended mutex-protected run: fast initialized check (line 210), the
cond-wait loop on get_lock (line 235, none = the call is blocked there),
the re-check of *initialized (line 239) and set_lock(*guard_object, true)
(line 241).  pthread primitives are assumed to succeed here; acquireF below
models their failure. -/
def cxa_guard_acquire (g : Nat) : Option (Nat × Nat) :=
  if g % 256 = 0 then
    if get_lock g then none
    else
      if g % 256 = 0 then some (1, set_lock g true)
      else some (0, g)
  else some (0, g)

/-- __cxa_guard_release (lines 251-265): *guard_object = 0 then
set_initialized, under the mutex. -/
def cxa_guard_release (g : Nat) : Nat := set_initialized (release_mid g)

/-- __cxa_guard_abort (lines 267-280): *guard_object = 0. -/
def cxa_guard_abort (g : Nat) : Nat := 0

/-- __cxa_guard_acquire with the pthread primitive results made explicit:
mfail is pthread_mutex_lock failing (line 207), wfail is pthread_cond_wait
failing when the wait loop is entered (line 236), ufail is
pthread_mutex_unlock failing (line 245).  An Except.error is abort_message
terminating the process with the quoted diagnostic; ok none is the call
still blocked in cond_wait. -/
def acquireF (mfail wfail ufail : Bool) (g : Nat) : Except String (Option (Nat × Nat)) :=
  if mfail then Except.error "__cxa_guard_acquire failed to acquire mutex"
  else
    if g % 256 = 0 then
      if get_lock g then
        if wfail then Except.error "__cxa_guard_acquire condition variable wait failed"
        else Except.ok none
      else
        if g % 256 = 0 then
          if ufail then Except.error "__cxa_guard_acquire failed to release mutex"
          else Except.ok (some (1, set_lock g true))
        else
          if ufail then Except.error "__cxa_guard_acquire failed to release mutex"
          else Except.ok (some (0, g))
    else
      if ufail then Except.error "__cxa_guard_acquire failed to release mutex"
      else Except.ok (some (0, g))

/-- __cxa_guard_release with pthread primitive results explicit: mutex lock
(line 254), mutex unlock (line 260), cond broadcast (line 262). -/
def releaseF (mfail ufail bfail : Bool) (g : Nat) : Except String Nat :=
  if mfail then Except.error "__cxa_guard_release failed to acquire mutex"
  else
    let g2 := set_initialized (release_mid g)
    if ufail then Except.error "__cxa_guard_release failed to release mutex"
    else if bfail then Except.error "__cxa_guard_release failed to broadcast condition variable"
    else Except.ok g2

/-- __cxa_guard_abort with pthread primitive results explicit: mutex lock
(line 270), mutex unlock (line 275), cond broadcast (line 277). -/
def abortF (mfail ufail bfail : Bool) (g : Nat) : Except String Nat :=
  if mfail then Except.error "__cxa_guard_abort failed to acquire mutex"
  else
    if ufail then Except.error "__cxa_guard_abort failed to release mutex"
    else if bfail then Except.error "__cxa_guard_abort failed to broadcast condition variable"
    else Except.ok 0

end Generic

namespace Arm

/-- get_lock, boolean encoding on uint32 (lines 171-181): byte 1 of the
word via the union. -/
def get_lock (x : Nat) : Bool := x / 256 % 256 != 0

/-- set_lock, boolean encoding on uint32 (lines 183-194): fresh zero word,
byte 1 := y, assigned over the whole guard word. -/
def set_lock (x : Nat) (y : Bool) : Nat := (if y then 1 else 0) * 256

end Arm

namespace Conc

/-- Status of one thread racing through the guard protocol of the generic
configuration: it has not entered __cxa_guard_acquire yet, is blocked in
pthread_cond_wait, has returned 0, has returned 1 and still owns the
initialization, or has returned 1 and then run __cxa_guard_release. -/
inductive TStat where
  | start
  | waiting
  | got0
  | granted
  | released
deriving DecidableEq, Repr

/-- Global state of the protocol: the shared guard word plus the status of
each of the n racing threads.  The process-wide mutex serializes all guard
accesses, so it needs no explicit representation: each transition below is
one mutex-protected atomic segment. -/
structure CState (n : Nat) where
  guard : Nat
  tstat : Fin n → TStat

/-- One mutex-protected atomic segment of __cxa_guard_acquire (lines
203-249) or __cxa_guard_release (lines 251-265) in the generic
configuration, executed by thread i.  On entry an acquire either sees the
initialized byte set and returns 0 (line 210), claims the clear lock
(lines 239-241), or finds the lock held and blocks in pthread_cond_wait
(line 235).  A blocked thread that wakes with the lock still held re-enters
cond_wait without touching the state, so only wake-ups with the lock clear
are steps: such a thread re-reads the initialized byte (line 239) and
either returns 0 or claims the lock.  The granted thread may run release,
which stores 0 and then set_initialized. -/
inductive Step {n : Nat} : CState n → CState n → Prop where
  | fast (s : CState n) (i : Fin n) (hi : s.tstat i = TStat.start)
      (hg : s.guard % 256 ≠ 0) :
      Step s ⟨s.guard, Function.update s.tstat i TStat.got0⟩
  | grant (s : CState n) (i : Fin n) (hi : s.tstat i = TStat.start)
      (hg : s.guard % 256 = 0) (hl : Generic.get_lock s.guard = false) :
      Step s ⟨Generic.set_lock s.guard true, Function.update s.tstat i TStat.granted⟩
  | block (s : CState n) (i : Fin n) (hi : s.tstat i = TStat.start)
      (hg : s.guard % 256 = 0) (hl : Generic.get_lock s.guard = true) :
      Step s ⟨s.guard, Function.update s.tstat i TStat.waiting⟩
  | wake0 (s : CState n) (i : Fin n) (hi : s.tstat i = TStat.waiting)
      (hl : Generic.get_lock s.guard = false) (hg : s.guard % 256 ≠ 0) :
      Step s ⟨s.guard, Function.update s.tstat i TStat.got0⟩
  | wake1 (s : CState n) (i : Fin n) (hi : s.tstat i = TStat.waiting)
      (hl : Generic.get_lock s.guard = false) (hg : s.guard % 256 = 0) :
      Step s ⟨Generic.set_lock s.guard true, Function.update s.tstat i TStat.granted⟩
  | rel (s : CState n) (i : Fin n) (hi : s.tstat i = TStat.granted) :
      Step s ⟨Generic.set_initialized (Generic.release_mid s.guard),
        Function.update s.tstat i TStat.released⟩

/-- The initial state of the race: the caller-provided guard word is
all-zero and no thread has entered acquire yet. -/
def init (n : Nat) : CState n := ⟨0, fun _ => TStat.start⟩

/-- States reachable from the all-zero guard by any interleaving of the
atomic segments. -/
def Reachable {n : Nat} (s : CState n) : Prop :=
  Relation.ReflTransGen Step (init n) s

/-- Protocol invariant: the guard word is 0 (UNINITIALIZED) with every
thread still outside, or 256 (IN_PROGRESS) with exactly one granted thread
and everyone else outside or waiting, or 1 (INITIALIZED) with exactly one
released thread, nobody granted, and everyone else outside, waiting or
having returned 0. -/
def Inv {n : Nat} (s : CState n) : Prop :=
  (s.guard = 0 ∧ ∀ i, s.tstat i = TStat.start) ∨
  (s.guard = 256 ∧ ∃ j, s.tstat j = TStat.granted ∧
    ∀ i, i ≠ j → (s.tstat i = TStat.start ∨ s.tstat i = TStat.waiting)) ∨
  (s.guard = 1 ∧ ∃ j, s.tstat j = TStat.released ∧
    ∀ i, i ≠ j → (s.tstat i = TStat.start ∨ s.tstat i = TStat.waiting ∨
      s.tstat i = TStat.got0))

/-- Witness trace, first step: thread 0 of 1 claims the clear lock. -/
def wtrace2 : CState 1 :=
  ⟨Generic.set_lock (init 1).guard true,
    Function.update (init 1).tstat ⟨0, Nat.one_pos⟩ TStat.granted⟩

/-- Witness trace, second step: thread 0 runs __cxa_guard_release. -/
def wtrace3 : CState 1 :=
  ⟨Generic.set_initialized (Generic.release_mid wtrace2.guard),
    Function.update wtrace2.tstat ⟨0, Nat.one_pos⟩ TStat.released⟩

end Conc

/-- The word __cxa_guard_release leaves behind is 1 whatever the prior word
was (generic uint64 configuration). -/
theorem generic_release_eq (g : Nat) : Generic.cxa_guard_release g = 1 := by
  unfold Generic.cxa_guard_release Generic.release_mid Generic.set_initialized
  rfl

/-- The word __cxa_guard_release leaves behind is 1 whatever the prior word
was (Apple uint64 configuration). -/
theorem apple_release_eq (g : Nat) : Apple.cxa_guard_release g = 1 := by
  unfold Apple.cxa_guard_release Apple.release_mid Apple.set_initialized
  rfl

/-- The word __cxa_guard_release leaves behind is 1 whatever the prior word
was (Duetto uint32 configuration). -/
theorem duetto_release_eq (g : Nat) : Duetto.cxa_guard_release g = 1 := by
  unfold Duetto.cxa_guard_release Duetto.release_mid Duetto.set_initialized
  rfl

/-- C2: once __cxa_guard_release has run on a guard word, a subsequent
__cxa_guard_acquire on it, from any thread, returns 0 through the fast path:
it neither blocks (the result is a returned value, never the blocked case)
nor changes the word, in all three configurations; and in general any guard
word whose initialized field is set makes acquire return 0 at once with the
word untouched, so every later acquire call also returns 0. -/
theorem C2_release_then_acquire_returns_zero (g id : Nat) :
    Generic.cxa_guard_acquire (Generic.cxa_guard_release g) =
      some (0, Generic.cxa_guard_release g) ∧
    Duetto.cxa_guard_acquire (Duetto.cxa_guard_release g) =
      (0, Duetto.cxa_guard_release g) ∧
    Apple.cxa_guard_acquire id (Apple.cxa_guard_release g) =
      AcqResult.ret 0 (Apple.cxa_guard_release g) ∧
    (∀ h : Nat, Generic.is_initialized h = true →
      Generic.cxa_guard_acquire h = some (0, h)) := by
  refine ⟨?_, ?_, ?_, ?_⟩
  · rw [generic_release_eq]; decide
  · rw [duetto_release_eq]; decide
  · rw [apple_release_eq]
    simp [Apple.cxa_guard_acquire]
  · intro h hh
    have hh' : ¬(h % 256 = 0) := by
      simpa [Generic.is_initialized, bne_iff_ne] using hh
    unfold Generic.cxa_guard_acquire
    rw [if_neg hh']

/-- C2 witness: the fourth conjunct applied to the concrete released word 1. -/
theorem C2_witness : Generic.cxa_guard_acquire 1 = some (0, 1) :=
  (C2_release_then_acquire_returns_zero 0 0).2.2.2 1 (by decide)

/-- C5: from the all-zero word, acquire grants (returns 1); abort then stores
0 over the whole word, restoring the all-zero bytes; a fresh acquire on the
result grants again (returns 1, not 0), in all three configurations. -/
theorem C5_retry_after_abort (id id2 : Nat) :
    (Generic.cxa_guard_acquire 0 = some (1, Generic.set_lock 0 true) ∧
     Generic.cxa_guard_abort (Generic.set_lock 0 true) = 0 ∧
     Generic.cxa_guard_acquire (Generic.cxa_guard_abort (Generic.set_lock 0 true)) =
       some (1, Generic.set_lock 0 true)) ∧
    (Duetto.cxa_guard_acquire 0 = (1, 1) ∧
     Duetto.cxa_guard_abort 1 = 0 ∧
     Duetto.cxa_guard_acquire (Duetto.cxa_guard_abort 1) = (1, 1)) ∧
    (Apple.cxa_guard_acquire id 0 = AcqResult.ret 1 (Apple.set_lock 0 id) ∧
     Apple.cxa_guard_abort (Apple.set_lock 0 id) = 0 ∧
     Apple.cxa_guard_acquire id2 0 = AcqResult.ret 1 (Apple.set_lock 0 id2)) := by
  refine ⟨⟨by decide, rfl, by decide⟩, ⟨by decide, rfl, by decide⟩, ?_, rfl, ?_⟩
  · simp [Apple.cxa_guard_acquire, Apple.get_lock]
  · simp [Apple.cxa_guard_acquire, Apple.get_lock]

/-- C9: whenever __cxa_guard_acquire returns to its caller (is not blocked
and did not hit abort_message), the returned int is 0 or 1, in every
configuration and also when pthread primitive results are modelled. -/
theorem C9_result_is_zero_or_one (g id r g' : Nat) :
    (Generic.cxa_guard_acquire g = some (r, g') → r = 0 ∨ r = 1) ∧
    (∀ m w u : Bool, Generic.acquireF m w u g = Except.ok (some (r, g')) →
      r = 0 ∨ r = 1) ∧
    (Apple.cxa_guard_acquire id g = AcqResult.ret r g' → r = 0 ∨ r = 1) ∧
    (Duetto.cxa_guard_acquire g = (r, g') → r = 0 ∨ r = 1) := by
  refine ⟨?_, ?_, ?_, ?_⟩
  · intro h
    unfold Generic.cxa_guard_acquire at h
    split_ifs at h <;> (simp at h; omega)
  · intro m w u h
    unfold Generic.acquireF at h
    split_ifs at h <;>
      first
      | (simp at h; omega)
      | simp at h
  · intro h
    unfold Apple.cxa_guard_acquire at h
    split_ifs at h <;> (simp at h; omega)
  · intro h
    unfold Duetto.cxa_guard_acquire at h
    split_ifs at h <;> (simp at h; omega)

/-- C9 witness: the granting run on word 0 and the fast-path run on word 1
instantiate the hypotheses concretely. -/
theorem C9_witness :
    ((1 : Nat) = 0 ∨ (1 : Nat) = 1) ∧ ((0 : Nat) = 0 ∨ (0 : Nat) = 1) :=
  ⟨(C9_result_is_zero_or_one 0 0 1 256).1 (by decide),
   (C9_result_is_zero_or_one 1 0 0 1).2.2.2 (by decide)⟩

/-- C10 counterexample: the __DUETTO__ set_lock stores y over the whole
word, so with prior word 0 and lock value 1 (exactly what the grant path
passes, since true converts to 1) the initialized bit is set afterwards,
not zero as the claim requires. -/
theorem C10_cex_duetto_set_lock_sets_initialized :
    Duetto.set_lock 0 1 = 1 ∧
    Duetto.is_initialized (Duetto.set_lock 0 1) = true := ⟨rfl, rfl⟩

/-- C10 amended: every set_lock variant discards the prior word entirely.
Under the Apple uint64 ownership encoding and both boolean encodings every
bit outside the lock field, the initialized field included, is zero
afterwards; under the __DUETTO__ encoding the lock field is the whole word,
so the word afterwards is just y (truncated to 32 bits) and the initialized
bit equals bit 0 of y instead of being forced to zero. -/
theorem C10_amended_set_lock_rewrites_word (x yn : Nat) (yb : Bool) :
    (Apple.set_lock x yn % 4294967296 = 0 ∧
     Apple.is_initialized (Apple.set_lock x yn) = false) ∧
    (Generic.set_lock x yb % 256 = 0 ∧ Generic.set_lock x yb / 65536 = 0 ∧
     Generic.is_initialized (Generic.set_lock x yb) = false) ∧
    (Arm.set_lock x yb % 256 = 0 ∧ Arm.set_lock x yb / 65536 = 0) ∧
    Duetto.set_lock x yn = yn % 4294967296 := by
  refine ⟨⟨?_, ?_⟩, ?_, ?_, rfl⟩
  · unfold Apple.set_lock; omega
  · simp only [Apple.is_initialized, Apple.set_lock, bne_eq_false_iff_eq]
    omega
  · cases yb <;> simp [Generic.set_lock, Generic.is_initialized]
  · cases yb <;> simp [Arm.set_lock]

/-- C3 counterexample: under __DUETTO__, acquire on the all-zero word
returns 1 and leaves the word equal to 1, whose initialized bit is set; the
word is therefore not in the claimed IN_PROGRESS shape (lock set with
initialized clear). -/
theorem C3_cex_duetto_grant_sets_initialized :
    Duetto.cxa_guard_acquire 0 = (1, 1) ∧
    Duetto.is_initialized 1 = true := ⟨rfl, rfl⟩

/-- C3 amended: after acquire returns 1 on the all-zero word the lock field
is set in every configuration, and under the boolean and Apple ownership
encodings the initialized field is moreover clear (a genuine IN_PROGRESS
state); under the __DUETTO__ encoding the grant writes 1 over the whole
word, so the lock field (the entire word) is nonzero but the initialized
bit is set as well, making IN_PROGRESS and INITIALIZED coincide there.
The generic operations moreover keep the word within the three states
0 (UNINITIALIZED), 256 (IN_PROGRESS) and 1 (INITIALIZED). -/
theorem C3_amended_grant_state (id : Nat) (h1 : id ≠ 0) (h2 : id < 4294967296) :
    (Generic.cxa_guard_acquire 0 = some (1, Generic.set_lock 0 true) ∧
     Generic.get_lock (Generic.set_lock 0 true) = true ∧
     Generic.is_initialized (Generic.set_lock 0 true) = false) ∧
    (Apple.cxa_guard_acquire id 0 = AcqResult.ret 1 (Apple.set_lock 0 id) ∧
     Apple.get_lock (Apple.set_lock 0 id) ≠ 0 ∧
     Apple.is_initialized (Apple.set_lock 0 id) = false) ∧
    (Duetto.cxa_guard_acquire 0 = (1, 1) ∧
     Duetto.get_lock 1 ≠ 0 ∧ Duetto.is_initialized 1 = true) ∧
    (∀ g r g', (g = 0 ∨ g = 256 ∨ g = 1) →
       Generic.cxa_guard_acquire g = some (r, g') →
       (g' = 0 ∨ g' = 256 ∨ g' = 1)) ∧
    (∀ g, Generic.cxa_guard_release g = 1 ∧ Generic.cxa_guard_abort g = 0) := by
  refine ⟨⟨by decide, by decide, by decide⟩, ⟨?_, ?_, ?_⟩,
    ⟨by decide, by decide, by decide⟩, ?_, fun g => ⟨generic_release_eq g, rfl⟩⟩
  · simp [Apple.cxa_guard_acquire, Apple.get_lock]
  · unfold Apple.get_lock Apple.set_lock
    omega
  · simp only [Apple.is_initialized, Apple.set_lock, bne_eq_false_iff_eq]
    omega
  · intro g r g' hg h
    rcases hg with hg | hg | hg <;> subst hg
    · rw [(by decide : Generic.cxa_guard_acquire 0 = some (1, 256))] at h
      simp at h
      omega
    · rw [(by decide : Generic.cxa_guard_acquire 256 = none)] at h
      exact Option.noConfusion h
    · rw [(by decide : Generic.cxa_guard_acquire 1 = some (0, 1))] at h
      simp at h
      omega

/-- C3 witness: the Duetto conjunct at the concrete thread id 5. -/
theorem C3_amended_witness :
    Duetto.cxa_guard_acquire 0 = (1, 1) ∧
    Duetto.get_lock 1 ≠ 0 ∧ Duetto.is_initialized 1 = true :=
  (C3_amended_grant_state 5 (by decide) (by decide)).2.2.1

/-- C4: release leaves the word with the initialized field set and every
lock bit clear (the whole rest of the word is zero), and the one
intermediate state release creates under the mutex, the all-zero word after
the 0 store and before set_initialized, has the initialized field clear, so
initialized is never observable together with stale lock bits. -/
theorem C4_release_clears_lock_then_sets_initialized (g : Nat) :
    (Generic.is_initialized (Generic.cxa_guard_release g) = true ∧
     Generic.get_lock (Generic.cxa_guard_release g) = false ∧
     Generic.cxa_guard_release g / 256 = 0 ∧
     Generic.is_initialized (Generic.release_mid g) = false ∧
     Generic.get_lock (Generic.release_mid g) = false) ∧
    (Apple.is_initialized (Apple.cxa_guard_release g) = true ∧
     Apple.get_lock (Apple.cxa_guard_release g) = 0 ∧
     Apple.cxa_guard_release g / 256 = 0 ∧
     Apple.is_initialized (Apple.release_mid g) = false) ∧
    (Duetto.is_initialized (Duetto.cxa_guard_release g) = true ∧
     Duetto.cxa_guard_release g / 2 = 0 ∧
     Duetto.is_initialized (Duetto.release_mid g) = false) := by
  refine ⟨⟨?_, ?_, ?_, ?_, ?_⟩, ⟨?_, ?_, ?_, ?_⟩, ⟨?_, ?_, ?_⟩⟩ <;>
    simp [generic_release_eq, apple_release_eq, duetto_release_eq,
      Generic.release_mid, Apple.release_mid, Duetto.release_mid,
      Generic.is_initialized, Apple.is_initialized, Duetto.is_initialized,
      Generic.get_lock, Apple.get_lock]

/-- C6: in the Apple ownership configuration, a thread whose own id sits in
the lock field of a still-uninitialized guard (the state it holds between a
grant and release/abort) gets the fatal deadlock abort_message from a
re-entrant acquire; the call neither blocks nor returns a value. -/
theorem C6_self_deadlock_is_fatal (id g : Nat)
    (hinit : Apple.is_initialized g = false)
    (hlock : Apple.get_lock g = id) (hid : id ≠ 0) :
    Apple.cxa_guard_acquire id g =
      AcqResult.fatal "__cxa_guard_acquire detected deadlock" := by
  simp only [Apple.is_initialized, bne_eq_false_iff_eq] at hinit
  simp [Apple.cxa_guard_acquire, hinit, hlock, hid]

/-- C6 witness: thread id 5 re-acquiring the guard word it locked. -/
theorem C6_witness :
    Apple.cxa_guard_acquire 5 (Apple.set_lock 0 5) =
      AcqResult.fatal "__cxa_guard_acquire detected deadlock" :=
  C6_self_deadlock_is_fatal 5 (Apple.set_lock 0 5) (by decide) (by decide)
    (by decide)

/-- C7 counterexample: under __DUETTO__, the granting acquire on the
all-zero word flips the initialized field from clear to set, so acquire
does not leave the initialized field unchanged. -/
theorem C7_cex_duetto_acquire_mutates_initialized :
    Duetto.cxa_guard_acquire 0 = (1, 1) ∧
    Duetto.is_initialized 0 = false ∧
    Duetto.is_initialized 1 = true := ⟨rfl, rfl, rfl⟩

/-- C7 amended: under the boolean and Apple encodings a returning acquire
preserves the initialized field for every starting word and leaves the word
entirely unchanged whenever it returns 0; under the __DUETTO__ encoding a
0-returning acquire also leaves the word unchanged, but a granting acquire
writes 1 over the whole word (setting the initialized bit). -/
theorem C7_amended_acquire_frame (g id r g' : Nat) :
    (Generic.cxa_guard_acquire g = some (r, g') →
       Generic.is_initialized g' = Generic.is_initialized g ∧
       (r = 0 → g' = g)) ∧
    (Apple.cxa_guard_acquire id g = AcqResult.ret r g' →
       Apple.is_initialized g' = Apple.is_initialized g ∧
       (r = 0 → g' = g)) ∧
    (Duetto.cxa_guard_acquire g = (r, g') →
       ((r = 0 → g' = g) ∧ (r = 1 → g' = 1))) := by
  refine ⟨?_, ?_, ?_⟩
  · intro h
    unfold Generic.cxa_guard_acquire at h
    split_ifs at h with h1 h2
    · simp only [Option.some.injEq, Prod.mk.injEq] at h
      obtain ⟨hr, hg2⟩ := h
      constructor
      · rw [← hg2]
        simp [Generic.is_initialized, Generic.set_lock, h1]
      · intro h0; omega
    · simp only [Option.some.injEq, Prod.mk.injEq] at h
      obtain ⟨hr, hg2⟩ := h
      exact ⟨by rw [← hg2], fun _ => hg2.symm⟩
  · intro h
    unfold Apple.cxa_guard_acquire at h
    split_ifs at h with h1 h2
    · simp only [AcqResult.ret.injEq] at h
      obtain ⟨hr, hg2⟩ := h
      constructor
      · rw [← hg2]
        have e1 : Apple.is_initialized (Apple.set_lock g id) = false := by
          simp only [Apple.is_initialized, Apple.set_lock, bne_eq_false_iff_eq]
          omega
        have e2 : Apple.is_initialized g = false := by
          simp only [Apple.is_initialized, bne_eq_false_iff_eq]
          exact h1
        rw [e1, e2]
      · intro h0; omega
    · simp only [AcqResult.ret.injEq] at h
      obtain ⟨hr, hg2⟩ := h
      exact ⟨by rw [← hg2], fun _ => hg2.symm⟩
  · intro h
    unfold Duetto.cxa_guard_acquire at h
    split_ifs at h with h1
    · simp only [Prod.mk.injEq] at h
      obtain ⟨hr, hg2⟩ := h
      refine ⟨fun h0 => by omega, fun _ => by rw [← hg2]; rfl⟩
    · simp only [Prod.mk.injEq] at h
      obtain ⟨hr, hg2⟩ := h
      exact ⟨fun _ => hg2.symm, fun h1' => by omega⟩

namespace Conc

/-- Two threads whose statuses differ are distinct. -/
theorem tstat_ne {n : Nat} {s : CState n} {i j : Fin n} {a b : TStat}
    (ha : s.tstat i = a) (hb : s.tstat j = b) (hab : a ≠ b) : i ≠ j := by
  intro e
  subst e
  rw [ha] at hb
  exact hab hb

/-- The protocol invariant is preserved by every atomic segment. -/
theorem step_inv {n : Nat} {s t : CState n} (hinv : Inv s) (hst : Step s t) :
    Inv t := by
  cases hst with
  | fast i hi hg =>
    rcases hinv with ⟨h0, hall⟩ | ⟨h0, j, hj, hrest⟩ | ⟨h0, j, hj, hrest⟩
    · exact absurd (by omega) hg
    · exact absurd (by omega) hg
    · refine Or.inr (Or.inr ⟨h0, j, ?_, ?_⟩)
      · dsimp only
        rw [Function.update_noteq (tstat_ne hj hi (by decide))]
        exact hj
      · dsimp only
        intro k hk
        by_cases hki : k = i
        · subst hki
          rw [Function.update_same]
          exact Or.inr (Or.inr rfl)
        · rw [Function.update_noteq hki]
          exact hrest k hk
  | grant i hi hg hl =>
    rcases hinv with ⟨h0, hall⟩ | ⟨h0, j, hj, hrest⟩ | ⟨h0, j, hj, hrest⟩
    · refine Or.inr (Or.inl ⟨?_, i, ?_, ?_⟩)
      · unfold Generic.set_lock
        rfl
      · dsimp only
        rw [Function.update_same]
      · dsimp only
        intro k hk
        rw [Function.update_noteq hk]
        exact Or.inl (hall k)
    · rw [h0] at hl
      exact absurd hl (by decide)
    · rw [h0] at hg
      exact absurd hg (by decide)
  | block i hi hg hl =>
    rcases hinv with ⟨h0, hall⟩ | ⟨h0, j, hj, hrest⟩ | ⟨h0, j, hj, hrest⟩
    · rw [h0] at hl
      exact absurd hl (by decide)
    · refine Or.inr (Or.inl ⟨h0, j, ?_, ?_⟩)
      · dsimp only
        rw [Function.update_noteq (tstat_ne hj hi (by decide))]
        exact hj
      · dsimp only
        intro k hk
        by_cases hki : k = i
        · subst hki
          rw [Function.update_same]
          exact Or.inr rfl
        · rw [Function.update_noteq hki]
          exact hrest k hk
    · rw [h0] at hg
      exact absurd hg (by decide)
  | wake0 i hi hl hg =>
    rcases hinv with ⟨h0, hall⟩ | ⟨h0, j, hj, hrest⟩ | ⟨h0, j, hj, hrest⟩
    · rw [hall i] at hi
      exact absurd hi (by decide)
    · rw [h0] at hl
      exact absurd hl (by decide)
    · refine Or.inr (Or.inr ⟨h0, j, ?_, ?_⟩)
      · dsimp only
        rw [Function.update_noteq (tstat_ne hj hi (by decide))]
        exact hj
      · dsimp only
        intro k hk
        by_cases hki : k = i
        · subst hki
          rw [Function.update_same]
          exact Or.inr (Or.inr rfl)
        · rw [Function.update_noteq hki]
          exact hrest k hk
  | wake1 i hi hl hg =>
    rcases hinv with ⟨h0, hall⟩ | ⟨h0, j, hj, hrest⟩ | ⟨h0, j, hj, hrest⟩
    · rw [hall i] at hi
      exact absurd hi (by decide)
    · rw [h0] at hl
      exact absurd hl (by decide)
    · rw [h0] at hg
      exact absurd hg (by decide)
  | rel i hi =>
    rcases hinv with ⟨h0, hall⟩ | ⟨h0, j, hj, hrest⟩ | ⟨h0, j, hj, hrest⟩
    · rw [hall i] at hi
      exact absurd hi (by decide)
    · have hij : i = j := by
        by_contra hne
        rcases hrest i hne with hh | hh <;> rw [hi] at hh <;>
          exact absurd hh (by decide)
      subst hij
      refine Or.inr (Or.inr ⟨?_, i, ?_, ?_⟩)
      · unfold Generic.set_initialized Generic.release_mid
        rfl
      · dsimp only
        rw [Function.update_same]
      · dsimp only
        intro k hk
        rw [Function.update_noteq hk]
        rcases hrest k hk with hh | hh
        · exact Or.inl hh
        · exact Or.inr (Or.inl hh)
    · by_cases e : i = j
      · subst e
        rw [hi] at hj
        exact absurd hj (by decide)
      · rcases hrest i e with hh | hh | hh <;> rw [hi] at hh <;>
          exact absurd hh (by decide)

/-- Every reachable state satisfies the protocol invariant. -/
theorem reachable_inv {n : Nat} {s : CState n} (h : Reachable s) : Inv s := by
  unfold Reachable at h
  induction h with
  | refl => exact Or.inl ⟨rfl, fun i => rfl⟩
  | tail hab hbc ih => exact step_inv ih hbc

end Conc

/-- C1: for any number n > 0 of threads racing acquire on an all-zero guard
word in the generic configuration, in every interleaving of the
mutex-protected atomic segments that lets every call return (which requires
the grantee to have run release), exactly one thread returned 1, all other
n - 1 threads returned 0, and the final guard word has the initialized
field set, which is what every 0-returning thread observed and what any
later observer reads. -/
theorem C1_exactly_one_grant (n : Nat) (hn : 0 < n) (s : Conc.CState n)
    (hreach : Conc.Reachable s)
    (hdone : ∀ i, s.tstat i = Conc.TStat.got0 ∨ s.tstat i = Conc.TStat.released) :
    Generic.is_initialized s.guard = true ∧
    ∃ j, s.tstat j = Conc.TStat.released ∧
      ∀ i, i ≠ j → s.tstat i = Conc.TStat.got0 := by
  rcases Conc.reachable_inv hreach with ⟨h0, hall⟩ | ⟨h0, j, hj, hrest⟩ |
    ⟨h0, j, hj, hrest⟩
  · rcases hdone ⟨0, hn⟩ with hh | hh <;> rw [hall ⟨0, hn⟩] at hh <;>
      exact absurd hh (by decide)
  · rcases hdone j with hh | hh <;> rw [hj] at hh <;>
      exact absurd hh (by decide)
  · refine ⟨by rw [h0]; decide, j, hj, ?_⟩
    intro i hij
    rcases hdone i with hh | hh
    · exact hh
    · rcases hrest i hij with hh2 | hh2 | hh2 <;> rw [hh] at hh2 <;>
        exact absurd hh2 (by decide)

/-- C1 witness: the 1-thread trace grant-then-release reaches a completed
state, for which the theorem yields the grant and the initialized word. -/
theorem C1_witness :
    Generic.is_initialized Conc.wtrace3.guard = true ∧
    ∃ j, Conc.wtrace3.tstat j = Conc.TStat.released ∧
      ∀ i, i ≠ j → Conc.wtrace3.tstat i = Conc.TStat.got0 := by
  apply C1_exactly_one_grant 1 Nat.one_pos Conc.wtrace3
  · have s1 : Conc.Step (Conc.init 1) Conc.wtrace2 :=
      Conc.Step.grant (Conc.init 1) ⟨0, Nat.one_pos⟩ rfl rfl (by decide)
    have s2 : Conc.Step Conc.wtrace2 Conc.wtrace3 :=
      Conc.Step.rel Conc.wtrace2 ⟨0, Nat.one_pos⟩
        (by simp [Conc.wtrace2, Conc.init])
    exact Relation.ReflTransGen.tail (Relation.ReflTransGen.single s1) s2
  · intro i
    right
    have hi : i = ⟨0, Nat.one_pos⟩ := Subsingleton.elim i _
    rw [hi]
    simp [Conc.wtrace3]

/-- C8: in the pthread configuration, whenever a mutex or condition-variable
primitive that an operation actually calls fails, the operation ends in
abort_message (modelled as Except.error, never a returned value), and every
such diagnostic starts with the name of the failing entry point
(__cxa_guard_acquire, __cxa_guard_release or __cxa_guard_abort); the
reverse inclusion also holds: an error outcome always carries such a
message, so no other error is ever surfaced to the caller. -/
theorem C8_primitive_failure_is_fatal (g : Nat) (m w u b : Bool) :
    (∀ e, Generic.acquireF m w u g = Except.error e →
      ∃ s, e = "__cxa_guard_acquire" ++ s) ∧
    ((m = true ∨ (g % 256 = 0 ∧ Generic.get_lock g = true ∧ w = true) ∨
        (¬(g % 256 = 0 ∧ Generic.get_lock g = true) ∧ u = true)) →
      ∃ e, Generic.acquireF m w u g = Except.error e) ∧
    (∀ e, Generic.releaseF m u b g = Except.error e →
      ∃ s, e = "__cxa_guard_release" ++ s) ∧
    ((m || u || b) = true → ∃ e, Generic.releaseF m u b g = Except.error e) ∧
    (∀ e, Generic.abortF m u b g = Except.error e →
      ∃ s, e = "__cxa_guard_abort" ++ s) ∧
    ((m || u || b) = true → ∃ e, Generic.abortF m u b g = Except.error e) := by
  refine ⟨?_, ?_, ?_, ?_, ?_, ?_⟩
  · intro e he
    unfold Generic.acquireF at he
    split_ifs at he <;> simp only [Except.error.injEq] at he <;> subst he <;>
      first
      | exact ⟨" failed to acquire mutex", rfl⟩
      | exact ⟨" condition variable wait failed", rfl⟩
      | exact ⟨" failed to release mutex", rfl⟩
      | exact ⟨" failed to broadcast condition variable", rfl⟩
  · intro hcase
    unfold Generic.acquireF
    rcases hcase with hm | ⟨hg, hl, hw⟩ | ⟨hgl, hu⟩
    · rw [if_pos hm]
      exact ⟨_, rfl⟩
    · cases m
      · rw [if_neg (by simp), if_pos hg, if_pos hl, if_pos hw]
        exact ⟨_, rfl⟩
      · exact ⟨_, rfl⟩
    · cases m
      · simp only [Bool.false_eq_true, if_false]
        by_cases hg : g % 256 = 0
        · rw [if_pos hg]
          have hl : Generic.get_lock g = false := by
            cases hlv : Generic.get_lock g
            · rfl
            · exact absurd ⟨hg, hlv⟩ hgl
          rw [hl, if_neg (by simp), if_pos hg, if_pos hu]
          exact ⟨_, rfl⟩
        · rw [if_neg hg, if_pos hu]
          exact ⟨_, rfl⟩
      · exact ⟨_, rfl⟩
  · intro e he
    unfold Generic.releaseF at he
    split_ifs at he <;> simp only [Except.error.injEq] at he <;> subst he <;>
      first
      | exact ⟨" failed to acquire mutex", rfl⟩
      | exact ⟨" condition variable wait failed", rfl⟩
      | exact ⟨" failed to release mutex", rfl⟩
      | exact ⟨" failed to broadcast condition variable", rfl⟩
  · intro hcase
    unfold Generic.releaseF
    cases m
    · cases u
      · cases b
        · simp at hcase
        · exact ⟨"__cxa_guard_release failed to broadcast condition variable", by simp⟩
      · exact ⟨"__cxa_guard_release failed to release mutex", by simp⟩
    · exact ⟨_, rfl⟩
  · intro e he
    unfold Generic.abortF at he
    split_ifs at he <;> simp only [Except.error.injEq] at he <;> subst he <;>
      first
      | exact ⟨" failed to acquire mutex", rfl⟩
      | exact ⟨" condition variable wait failed", rfl⟩
      | exact ⟨" failed to release mutex", rfl⟩
      | exact ⟨" failed to broadcast condition variable", rfl⟩
  · intro hcase
    unfold Generic.abortF
    cases m
    · cases u
      · cases b
        · simp at hcase
        · exact ⟨"__cxa_guard_abort failed to broadcast condition variable", by simp⟩
      · exact ⟨"__cxa_guard_abort failed to release mutex", by simp⟩
    · exact ⟨_, rfl⟩

/-- C8 witness: a failing pthread_mutex_lock makes each of the three
operations fatal on the all-zero guard word. -/
theorem C8_witness :
    (∃ e, Generic.acquireF true false false 0 = Except.error e) ∧
    (∃ e, Generic.releaseF true false false 0 = Except.error e) ∧
    (∃ e, Generic.abortF true false false 0 = Except.error e) :=
  ⟨(C8_primitive_failure_is_fatal 0 true false false false).2.1 (Or.inl rfl),
   (C8_primitive_failure_is_fatal 0 true false false false).2.2.2.1 (by decide),
   (C8_primitive_failure_is_fatal 0 true false false false).2.2.2.2.2 (by decide)⟩

/-- C7 witness: the fast-path run on the already-initialized word 1
instantiates the hypotheses of the Generic and Duetto conjuncts. -/
theorem C7_amended_witness :
    (Generic.is_initialized 1 = Generic.is_initialized 1 ∧
      ((0 : Nat) = 0 → (1 : Nat) = 1)) ∧
    (((0 : Nat) = 0 → (1 : Nat) = 1) ∧ ((0 : Nat) = 1 → (1 : Nat) = 1)) :=
  ⟨(C7_amended_acquire_frame 1 0 0 1).1 (by decide),
   (C7_amended_acquire_frame 1 0 0 1).2.2 (by decide)⟩

end CxaGuard
